import Mathlib

/-!
Shallow embedding of the hockey-manager scheduling core
(`backend/src/services/conflict.service.ts`, `game.service.ts`,
`availability.service.ts`, `schemas/game.schema.ts`, `middleware/error.ts`).

The Prisma store is modelled as lists of rows; `findUnique`/`findFirst`
become `List.find?` over the table in row order, `create` appends,
`update` maps over the table, `upsert` replaces or appends.  Timestamps
are `Int` milliseconds (JS `Date.getTime`).  Identifiers are `Nat`.
-/

/-- Game status enum (Prisma `GameStatus`). -/
inductive GameStatus
  | SCHEDULED
  | IN_PROGRESS
  | COMPLETED
  | CANCELLED
  | POSTPONED
deriving DecidableEq, Repr

/-- Game type enum (zod `gameType`). -/
inductive GameType
  | REGULAR
  | PLAYOFF
  | PRACTICE
  | SCRIMMAGE
deriving DecidableEq, Repr

/-- A row of the `Game` table. -/
structure Game where
  id : Nat
  teamId : Nat
  opponent : String
  location : String
  gameType : GameType
  startTime : Int
  endTime : Int
  status : GameStatus
  isHome : Bool
  rosterLocked : Bool
deriving DecidableEq, Repr

/-- A row of the `Team` table (only the fields the modelled services read). -/
structure Team where
  id : Nat
  name : String
deriving DecidableEq, Repr

/-- A row of the `TeamPlayer` table (the spec's TeamMembership). -/
structure TeamPlayer where
  playerId : Nat
  teamId : Nat
  isActive : Bool
deriving DecidableEq, Repr

/-- A row of the `GameRoster` join table. -/
structure RosterRow where
  gameId : Nat
  playerId : Nat
deriving DecidableEq, Repr

/-- Availability status enum (Prisma `AvailabilityStatus`). -/
inductive AvailStatus
  | PENDING
  | AVAILABLE
  | UNAVAILABLE
  | MAYBE
deriving DecidableEq, Repr

/-- A row of the `PlayerAvailability` table. -/
structure AvailabilityRow where
  playerId : Nat
  gameId : Nat
  status : AvailStatus
  note : Option String
  respondedAt : Int
deriving DecidableEq, Repr

/-- The lineup configuration (zod `lineupSchema`): three optional lists. -/
structure LineupInput where
  forwardLines : Option (List (List String))
  defensePairs : Option (List (List String))
  goalies : Option (List String)
deriving DecidableEq, Repr

/-- A row of the `Lineup` table.  The source stores `JSON.stringify(data)` and
parses it back on read; for the structural `LineupInput` values admitted by the
zod schema that round trip is the identity, so the configuration is kept
structurally. -/
structure LineupRow where
  gameId : Nat
  configuration : LineupInput
deriving DecidableEq, Repr

/-- The entity store: one list of rows per table, in insertion order. -/
structure DB where
  games : List Game
  teams : List Team
  players : List Nat
  teamPlayers : List TeamPlayer
  roster : List RosterRow
  lineups : List LineupRow
  availabilities : List AvailabilityRow
deriving DecidableEq, Repr

/-- Errors thrown by the services (`middleware/error.ts`): `NotFoundError`,
`ConflictError`, `ValidationError`, and the generic `ApiError(status, msg)`. -/
inductive ApiErr
  | notFound (resource : String)
  | conflict (msg : String)
  | validation (msg : String)
  | api (statusCode : Nat) (msg : String)
deriving DecidableEq, Repr

/-- `prisma.game.findUnique({ where: { id } })`. -/
def findGame (st : DB) (id : Nat) : Option Game :=
  st.games.find? (fun g => g.id == id)

/-- `prisma.team.findUnique({ where: { id } })`. -/
def findTeam (st : DB) (id : Nat) : Option Team :=
  st.teams.find? (fun t => t.id == id)

/-- `game.team.name` as read through the relation (relational integrity makes
the default branch unreachable in the real store). -/
def teamNameOf (st : DB) (teamId : Nat) : String :=
  ((findTeam st teamId).map Team.name).getD ""

/-- `DEFAULT_GAME_DURATION_MS = 2.5 * 60 * 60 * 1000`. -/
def DEFAULT_GAME_DURATION_MS : Int := 9000000

/-- The three-branch `OR` of `ConflictService.checkPlayerConflict`'s Prisma
query, testing an existing game row `g` against the proposed interval
`[s, e)`. -/
def overlapsCases (g : Game) (s e : Int) : Bool :=
  (decide (g.startTime ≤ s) && decide (s < g.endTime)) ||
  (decide (g.startTime < e) && decide (e ≤ g.endTime)) ||
  (decide (s ≤ g.startTime) && decide (g.endTime ≤ e))

/-- The full `where` clause of `checkPlayerConflict` on one `GameRoster` row:
player matches, parent game exists, is not the excluded game, has status not
in {CANCELLED, POSTPONED}, and overlaps the proposed interval.  Returns the
parent game of a matching row. -/
def conflictRowMatches (st : DB) (playerId : Nat) (s e : Int)
    (excludeGameId : Option Nat) (r : RosterRow) : Option Game :=
  if r.playerId == playerId then
    match findGame st r.gameId with
    | some g =>
      if (match excludeGameId with | some x => g.id != x | none => true)
          && g.status != GameStatus.CANCELLED
          && g.status != GameStatus.POSTPONED
          && overlapsCases g s e then
        some g
      else
        none
    | none => none
  else none

/-- `ConflictService.checkPlayerConflict`: `findFirst` over the roster table. -/
def checkPlayerConflict (st : DB) (playerId : Nat) (s e : Int)
    (excludeGameId : Option Nat) : Option Game :=
  (st.roster.filterMap (conflictRowMatches st playerId s e excludeGameId)).head?

/-- `ConflictService.validateRosterAddition`: looks up the game and checks the
player's conflicts against its interval, passing the target game id as the
exclusion; throws `ConflictError` when a conflict is found. -/
def validateRosterAddition (st : DB) (playerId gameId : Nat) : Except ApiErr Unit :=
  match findGame st gameId with
  | none => Except.ok ()
  | some game =>
    match checkPlayerConflict st playerId game.startTime game.endTime (some gameId) with
    | some c =>
      Except.error (ApiErr.conflict
        ("Player is already rostered for " ++ teamNameOf st c.teamId ++ " vs "
          ++ c.opponent ++ " at " ++ toString c.startTime))
    | none => Except.ok ()

/-- `ConflictService.getPlayersWithConflicts`: per-player loop collecting the
conflicting game found for each player id (insertion order of the `Map`). -/
def getPlayersWithConflicts (st : DB) (playerIds : List Nat) (s e : Int)
    (excludeGameId : Option Nat) : List (Nat × Game) :=
  playerIds.filterMap (fun p =>
    (checkPlayerConflict st p s e excludeGameId).map (fun g => (p, g)))

/-- `Map.size` of the collected conflicts: one entry per distinct player key. -/
def conflictsMapSize (l : List (Nat × Game)) : Nat :=
  ((l.map Prod.fst).dedup).length

/-- `CreateGameInput` after zod validation (defaults already applied). -/
structure CreateGameInput where
  teamId : Nat
  opponent : String
  location : String
  gameType : GameType
  startTime : Int
  endTime : Option Int
  isHome : Bool
deriving DecidableEq, Repr

/-- `UpdateGameInput` after zod validation: every field optional. -/
structure UpdateGameInput where
  opponent : Option String
  location : Option String
  gameType : Option GameType
  startTime : Option Int
  endTime : Option Int
  isHome : Option Bool
  status : Option GameStatus
deriving DecidableEq, Repr

/-- `GameService.create`.  The store generates the new row id; it is passed in
as `newId`.  Status and lock default to SCHEDULED / unlocked (Prisma schema
defaults, per the spec's data model: initial state on creation is open and
scheduled). -/
def gameCreate (st : DB) (newId : Nat) (data : CreateGameInput) :
    Except ApiErr (DB × Game) :=
  match findTeam st data.teamId with
  | none => Except.error (ApiErr.notFound "Team")
  | some _ =>
    let startTime := data.startTime
    let endTime :=
      match data.endTime with
      | some e => e
      | none => startTime + DEFAULT_GAME_DURATION_MS
    let game : Game :=
      { id := newId, teamId := data.teamId, opponent := data.opponent,
        location := data.location, gameType := data.gameType,
        startTime := startTime, endTime := endTime,
        status := GameStatus.SCHEDULED, isHome := data.isHome,
        rosterLocked := false }
    Except.ok ({ st with games := st.games ++ [game] }, game)

/-- `GameService.update`: if a time field is present, re-validate every
rostered player against the effective new interval (default duration applied
when only the start changes) excluding this game; reject with `ConflictError`
naming the conflict count if any; otherwise write the provided fields.  Note
the write applies only the fields present in `data`: when only `startTime` is
given, the stored `endTime` is left unchanged. -/
def gameUpdate (st : DB) (id : Nat) (data : UpdateGameInput) :
    Except ApiErr (DB × Game) :=
  match findGame st id with
  | none => Except.error (ApiErr.notFound "Game")
  | some existing =>
    let timeCheck : Except ApiErr Unit :=
      if data.startTime.isSome || data.endTime.isSome then
        let newStartTime :=
          match data.startTime with
          | some s => s
          | none => existing.startTime
        let newEndTime :=
          match data.endTime with
          | some e => e
          | none =>
            match data.startTime with
            | some _ => newStartTime + DEFAULT_GAME_DURATION_MS
            | none => existing.endTime
        let playerIds :=
          (st.roster.filter (fun r => r.gameId == id)).map RosterRow.playerId
        let conflicts :=
          getPlayersWithConflicts st playerIds newStartTime newEndTime (some id)
        let n := conflictsMapSize conflicts
        if n > 0 then
          Except.error (ApiErr.conflict
            ("Cannot change game time: " ++ toString n
              ++ " rostered player(s) have conflicts"))
        else Except.ok ()
      else Except.ok ()
    match timeCheck with
    | Except.error e => Except.error e
    | Except.ok _ =>
      let updated : Game :=
        { existing with
          opponent := data.opponent.getD existing.opponent,
          location := data.location.getD existing.location,
          gameType := data.gameType.getD existing.gameType,
          isHome := data.isHome.getD existing.isHome,
          status := data.status.getD existing.status,
          startTime := data.startTime.getD existing.startTime,
          endTime := data.endTime.getD existing.endTime }
      Except.ok
        ({ st with games := st.games.map (fun g => if g.id == id then updated else g) },
          updated)

/-- `GameService.delete`: soft delete, sets the game's status to CANCELLED. -/
def gameDelete (st : DB) (id : Nat) : Except ApiErr DB :=
  match findGame st id with
  | none => Except.error (ApiErr.notFound "Game")
  | some _ =>
    Except.ok
      { st with
        games := st.games.map (fun g =>
          if g.id == id then { g with status := GameStatus.CANCELLED } else g) }

/-- `GameService.addToRoster`. -/
def addToRoster (st : DB) (gameId playerId : Nat) : Except ApiErr DB :=
  match findGame st gameId with
  | none => Except.error (ApiErr.notFound "Game")
  | some game =>
    if game.rosterLocked then
      Except.error (ApiErr.api 400 "Roster is locked")
    else
      match st.teamPlayers.find? (fun tp =>
          tp.playerId == playerId && tp.teamId == game.teamId && tp.isActive) with
      | none => Except.error (ApiErr.api 400 "Player is not on this team")
      | some _ =>
        match validateRosterAddition st playerId gameId with
        | Except.error e => Except.error e
        | Except.ok _ =>
          match st.roster.find? (fun r =>
              r.gameId == gameId && r.playerId == playerId) with
          | some _ => Except.error (ApiErr.conflict "Player is already on the roster")
          | none =>
            Except.ok
              { st with roster := st.roster ++ [{ gameId := gameId, playerId := playerId }] }

/-- `GameService.removeFromRoster`.  A missing row makes `prisma.delete` throw
P2025, which the error middleware maps to a 404 "Record not found". -/
def removeFromRoster (st : DB) (gameId playerId : Nat) : Except ApiErr DB :=
  match findGame st gameId with
  | none => Except.error (ApiErr.notFound "Game")
  | some game =>
    if game.rosterLocked then
      Except.error (ApiErr.api 400 "Roster is locked")
    else
      match st.roster.find? (fun r => r.gameId == gameId && r.playerId == playerId) with
      | none => Except.error (ApiErr.api 404 "Record not found")
      | some _ =>
        Except.ok
          { st with
            roster := st.roster.filter (fun r =>
              !(r.gameId == gameId && r.playerId == playerId)) }

/-- `GameService.setLineup`: `upsert` keyed by game id. -/
def setLineup (st : DB) (gameId : Nat) (data : LineupInput) : Except ApiErr DB :=
  match findGame st gameId with
  | none => Except.error (ApiErr.notFound "Game")
  | some _ =>
    if (st.lineups.find? (fun l => l.gameId == gameId)).isSome then
      Except.ok
        { st with
          lineups := st.lineups.map (fun l =>
            if l.gameId == gameId then { l with configuration := data } else l) }
    else
      Except.ok
        { st with lineups := st.lineups ++ [{ gameId := gameId, configuration := data }] }

/-- `GameService.getLineup`: returns the stored configuration or null. -/
def getLineup (st : DB) (gameId : Nat) : Option LineupInput :=
  ((st.lineups.find? (fun l => l.gameId == gameId)).map LineupRow.configuration)

/-- `SetAvailabilityInput` after zod validation (status restricted by the
schema to AVAILABLE/UNAVAILABLE/MAYBE). -/
structure SetAvailabilityInput where
  status : AvailStatus
  note : Option String
deriving DecidableEq, Repr

/-- The `update` data of `setAvailability`'s upsert, applied to the matching
(player, game) row: status and `respondedAt` are always written; `note` is
written only when present in the request, since Prisma leaves a field
untouched when its update value is `undefined` (the zod-absent case). -/
def updAvail (playerId gameId : Nat) (data : SetAvailabilityInput) (now : Int)
    (a : AvailabilityRow) : AvailabilityRow :=
  if a.playerId == playerId && a.gameId == gameId then
    { a with
      status := data.status,
      note := match data.note with | some n => some n | none => a.note,
      respondedAt := now }
  else a

/-- `AvailabilityService.setAvailability`: verifies game and player exist,
then upserts the (player, game) availability row, stamping `respondedAt` with
the current clock (`now`, the injected `new Date()`). -/
def setAvailability (st : DB) (playerId gameId : Nat) (data : SetAvailabilityInput)
    (now : Int) : Except ApiErr DB :=
  match findGame st gameId with
  | none => Except.error (ApiErr.notFound "Game")
  | some _ =>
    if st.players.contains playerId then
      if (st.availabilities.find? (fun a =>
          a.playerId == playerId && a.gameId == gameId)).isSome then
        Except.ok
          { st with
            availabilities := st.availabilities.map (updAvail playerId gameId data now) }
      else
        Except.ok
          { st with
            availabilities := st.availabilities ++
              [{ playerId := playerId, gameId := gameId, status := data.status,
                 note := data.note, respondedAt := now }] }
    else Except.error (ApiErr.notFound "Player")

/-- The summary returned by `AvailabilityService.getAvailabilitySummary`. -/
structure AvailabilitySummary where
  total : Nat
  available : Nat
  unavailable : Nat
  maybe : Nat
  pending : Nat
deriving DecidableEq, Repr

/-- `AvailabilityService.getAvailabilitySummary`: `total` counts the active
TeamPlayer rows of the game's team; the tallies count this game's availability
rows by status; `pending` counts the team players with no availability row. -/
def getAvailabilitySummary (st : DB) (gameId : Nat) :
    Except ApiErr AvailabilitySummary :=
  match findGame st gameId with
  | none => Except.error (ApiErr.notFound "Game")
  | some game =>
    let teamPlayerIds :=
      (st.teamPlayers.filter (fun tp =>
        tp.teamId == game.teamId && tp.isActive)).map TeamPlayer.playerId
    let avails := st.availabilities.filter (fun a => a.gameId == gameId)
    let responded := avails.map AvailabilityRow.playerId
    Except.ok
      { total := teamPlayerIds.length,
        available := (avails.filter (fun a => a.status == AvailStatus.AVAILABLE)).length,
        unavailable := (avails.filter (fun a => a.status == AvailStatus.UNAVAILABLE)).length,
        maybe := (avails.filter (fun a => a.status == AvailStatus.MAYBE)).length,
        pending := (teamPlayerIds.filter (fun i => !(responded.contains i))).length }

/-!  Operation sequences for the scheduling invariant (claim C1's framing):
each request either commits or is rejected leaving the store unchanged.  -/

/-- One roster-lifecycle request. -/
inductive Op
  | add (gameId playerId : Nat)
  | remove (gameId playerId : Nat)
  | updateTime (gameId : Nat) (newStart newEnd : Option Int)
  | cancel (gameId : Nat)
deriving DecidableEq, Repr

/-- A PATCH body carrying only time fields (the spec's `UpdateGameTime`). -/
def mkTimeUpdate (s e : Option Int) : UpdateGameInput :=
  { opponent := none, location := none, gameType := none,
    startTime := s, endTime := e, isHome := none, status := none }

/-- Execute one request: a rejected request leaves the store unchanged. -/
def applyOp (st : DB) (op : Op) : DB :=
  match op with
  | Op.add g p =>
    match addToRoster st g p with
    | Except.ok st2 => st2
    | Except.error _ => st
  | Op.remove g p =>
    match removeFromRoster st g p with
    | Except.ok st2 => st2
    | Except.error _ => st
  | Op.updateTime g s e =>
    match gameUpdate st g (mkTimeUpdate s e) with
    | Except.ok (st2, _) => st2
    | Except.error _ => st
  | Op.cancel g =>
    match gameDelete st g with
    | Except.ok st2 => st2
    | Except.error _ => st

/-- Execute a sequence of requests. -/
def runOps (st : DB) (ops : List Op) : DB :=
  ops.foldl applyOp st

/-- Half-open interval overlap, the spec's formula `s1 < e2 AND s2 < e1`. -/
def overlapsHalfOpen (s1 e1 s2 e2 : Int) : Bool :=
  decide (s1 < e2) && decide (s2 < e1)

/-- Claim C1's invariant on one pair of roster rows: if the same player is
committed to two distinct games and neither game is CANCELLED, the games'
half-open intervals do not overlap. -/
def pairOk (st : DB) (r1 r2 : RosterRow) : Bool :=
  if r1.playerId == r2.playerId && r1.gameId != r2.gameId then
    match findGame st r1.gameId, findGame st r2.gameId with
    | some g1, some g2 =>
      if g1.status != GameStatus.CANCELLED && g2.status != GameStatus.CANCELLED then
        !(overlapsHalfOpen g1.startTime g1.endTime g2.startTime g2.endTime)
      else true
    | _, _ => true
  else true

/-- Claim C1's invariant over the whole store. -/
def claimConflictFree (st : DB) : Bool :=
  st.roster.all (fun r1 => st.roster.all (fun r2 => pairOk st r1 r2))

/-!  Generic list lemmas used to reason about the store operations.  -/

/-- `head?` of a `filterMap` is `none` exactly when no element matches. -/
theorem head?_filterMap_eq_none {α β : Type} (f : α → Option β) (l : List α) :
    (l.filterMap f).head? = none ↔ ∀ a ∈ l, f a = none := by
  induction l with
  | nil => simp
  | cons a l ih =>
    cases h : f a with
    | none => simp [List.filterMap_cons, h, ih]
    | some b => simp [List.filterMap_cons, h]

/-- `find?` commutes with a map that does not change the predicate's value. -/
theorem find?_map_of_pred {α : Type} (p : α → Bool) (f : α → α)
    (hf : ∀ a, p (f a) = p a) (l : List α) :
    (l.map f).find? p = (l.find? p).map f := by
  induction l with
  | nil => simp
  | cons a l ih =>
    cases h : p a with
    | true =>
      rw [List.map_cons, List.find?_cons_of_pos _ (by rw [hf a, h]),
        List.find?_cons_of_pos _ h, Option.map_some']
    | false =>
      rw [List.map_cons, List.find?_cons_of_neg _ (by simp [hf a, h]),
        List.find?_cons_of_neg _ (by simp [h]), ih]

/-- `find?` over an append whose first part has no match. -/
theorem find?_append_of_none {α : Type} (p : α → Bool) (l1 l2 : List α)
    (h : l1.find? p = none) : (l1 ++ l2).find? p = l2.find? p := by
  induction l1 with
  | nil => simp
  | cons a l ih =>
    cases ha : p a with
    | true => rw [List.find?_cons_of_pos _ ha] at h; exact absurd h (by simp)
    | false =>
      rw [List.find?_cons_of_neg _ (by simp [ha])] at h
      rw [List.cons_append, List.find?_cons_of_neg _ (by simp [ha]), ih h]

/-- Splitting a list's length by a predicate. -/
theorem length_filter_not_add_length_filter {α : Type} (p : α → Bool) (l : List α) :
    (l.filter (fun a => !p a)).length + (l.filter p).length = l.length := by
  induction l with
  | nil => simp
  | cons a l ih =>
    cases h : p a <;> simp [List.filter_cons, h] <;> omega

/-- A game found by id carries that id. -/
theorem findGame_id {st : DB} {i : Nat} {g : Game} (h : findGame st i = some g) :
    g.id = i := by
  have := List.find?_some h
  simpa using this

/-!  Concrete store states used by the counterexamples and witnesses.  -/

/-- The empty store. -/
def emptyDB : DB :=
  { games := [], teams := [], players := [], teamPlayers := [],
    roster := [], lineups := [], availabilities := [] }

/-- A 20000000 ms game (longer than the 2.5 h default duration). -/
def longGame : Game :=
  { id := 1, teamId := 1, opponent := "Ducks", location := "Rink",
    gameType := GameType.REGULAR, startTime := 10000000, endTime := 30000000,
    status := GameStatus.SCHEDULED, isHome := true, rosterLocked := false }

/-- A game ending exactly when `longGame` starts (back-to-back). -/
def earlyGame : Game :=
  { id := 2, teamId := 1, opponent := "Sharks", location := "Rink",
    gameType := GameType.REGULAR, startTime := 9000000, endTime := 10000000,
    status := GameStatus.SCHEDULED, isHome := true, rosterLocked := false }

/-- Claim C1's failing input: player 5 is committed to both games; the state
is conflict-free (the games are back-to-back). -/
def c1State : DB :=
  { emptyDB with
    games := [longGame, earlyGame]
    roster := [{ gameId := 1, playerId := 5 }, { gameId := 2, playerId := 5 }] }

/-- A single game `[0, 20000000)` of team 1. -/
def wideGame : Game :=
  { id := 1, teamId := 1, opponent := "Ducks", location := "Rink",
    gameType := GameType.REGULAR, startTime := 0, endTime := 20000000,
    status := GameStatus.SCHEDULED, isHome := true, rosterLocked := false }

/-- Claim C4's failing input: `wideGame` with no rostered players. -/
def c4State : DB := { emptyDB with games := [wideGame] }

/-- Claim C2's input: player 5 is already on the roster of the target game
itself, which trivially overlaps its own interval. -/
def c2State : DB :=
  { emptyDB with
    games := [wideGame]
    teamPlayers := [{ playerId := 5, teamId := 1, isActive := true }]
    roster := [{ gameId := 1, playerId := 5 }] }

/-- Claim C7's input: team 1 has one active member (player 2) who has not
responded; player 9, who is not on the team, has responded AVAILABLE. -/
def c7State : DB :=
  { emptyDB with
    games := [wideGame]
    teams := [{ id := 1, name := "Avalanche" }]
    teamPlayers := [{ playerId := 2, teamId := 1, isActive := true }]
    availabilities := [{ playerId := 9, gameId := 1, status := AvailStatus.AVAILABLE,
                         note := none, respondedAt := 0 }] }

/-- Claim C8's input store: one team, no games. -/
def c8State : DB := { emptyDB with teams := [{ id := 1, name := "Avalanche" }] }

/-- A creation request whose interval is malformed (`end < start`). -/
def c8Input : CreateGameInput :=
  { teamId := 1, opponent := "Ducks", location := "Rink",
    gameType := GameType.REGULAR, startTime := 1000, endTime := some 500,
    isHome := true }

/-- Count of distinct players with an availability row for a game (the
"players who have ever responded" of claim C7). -/
def respondersCount (st : DB) (gid : Nat) : Nat :=
  (((st.availabilities.filter (fun a => a.gameId == gid)).map
    AvailabilityRow.playerId).dedup).length

/-- Claim C1: the code violates the non-overlap invariant.  `c1State` is
conflict-free (the two SCHEDULED games of player 5 are back-to-back), yet a
single `UpdateGameTime(game 1, newStart := 0)` commits: the conflict check
runs on the effective interval `[0, 0 + 2.5h) = [0, 9000000)`, which misses
`earlyGame` `[9000000, 10000000)`, but the write keeps the old `endTime`
`30000000`, so game 1 becomes `[0, 30000000)` and player 5 now holds two
overlapping non-cancelled commitments. -/
theorem c1_invariant_broken_by_start_only_update :
    claimConflictFree c1State = true ∧
    claimConflictFree (runOps c1State [Op.updateTime 1 (some 0) none]) = false := by
  constructor
  · rfl
  · rfl

/-- Claim C4, failing input: updating only `startTime` checks the effective
interval `[1000, 1000 + 2.5h)` but persists the unchanged stored `endTime`
`20000000`, not the effective end `9001000` demanded by the claim. -/
theorem c4_start_only_update_persists_stale_end :
    (gameUpdate c4State 1 (mkTimeUpdate (some 1000) none)).toOption.map
      (fun p => (p.2.startTime, p.2.endTime)) = some (1000, 20000000) ∧
    (1000 : Int) + DEFAULT_GAME_DURATION_MS ≠ 20000000 := by
  constructor
  · rfl
  · decide

/-- Claim C2 is false: `addToRoster`'s conflict validation passes the target
game id as exclusion.  In `c2State` player 5 has a non-cancelled commitment
(to the target game itself) overlapping the proposed interval, so a check
"with no excluded game" would report a conflict, yet the code's validation
succeeds, and `addToRoster` instead fails on the later duplicate-row check. -/
theorem c2_check_does_exclude_target_game :
    validateRosterAddition c2State 5 1 = Except.ok () ∧
    (checkPlayerConflict c2State 5 0 20000000 none).isSome = true ∧
    addToRoster c2State 1 5 =
      Except.error (ApiErr.conflict "Player is already on the roster") := by
  refine ⟨rfl, rfl, rfl⟩

/-- Claim C7 is false as stated: in `c7State` one player (not a team member)
has ever responded, so the claim predicts `pending = total - 1 = 0`, but the
summary reports `pending = 1` (the sole member has not responded). -/
theorem c7_pending_counterexample :
    getAvailabilitySummary c7State 1 =
      Except.ok { total := 1, available := 1, unavailable := 0, maybe := 0, pending := 1 } ∧
    respondersCount c7State 1 = 1 ∧ (1 : Nat) ≠ 1 - 1 := by
  refine ⟨rfl, rfl, by decide⟩

/-- Claim C8 is false: a game creation whose interval has `end < start` is
not rejected with a `ValidationError`; it succeeds and the malformed interval
`[1000, 500)` is persisted. -/
theorem c8_malformed_interval_accepted :
    (gameCreate c8State 7 c8Input).toOption.map
      (fun p => (p.2.startTime, p.2.endTime)) = some (1000, 500) ∧
    ¬ ((500 : Int) > 1000) := by
  refine ⟨rfl, by decide⟩

/-- A game `[100, 200)` used to witness claim C3. -/
def c3Game : Game :=
  { id := 3, teamId := 1, opponent := "Kings", location := "Rink",
    gameType := GameType.REGULAR, startTime := 100, endTime := 200,
    status := GameStatus.SCHEDULED, isHome := true, rosterLocked := false }

/-- Claim C3: for valid half-open intervals, the three-branch disjunction of
`checkPlayerConflict`'s query holds exactly when the intervals overlap per
`s1 < e2 AND s2 < e1`; in particular an existing game ending exactly at the
proposed start, or starting exactly at the proposed end, is not reported. -/
theorem c3_cases_iff_overlap_formula (g : Game) (s e : Int)
    (hg : g.startTime < g.endTime) (hp : s < e) :
    (overlapsCases g s e = true ↔ (g.startTime < e ∧ s < g.endTime)) ∧
    (g.endTime = s → overlapsCases g s e = false) ∧
    (g.startTime = e → overlapsCases g s e = false) := by
  unfold overlapsCases
  refine ⟨?_, ?_, ?_⟩ <;>
    simp only [Bool.or_eq_true, Bool.and_eq_true, decide_eq_true_eq,
      Bool.or_eq_false_iff, Bool.and_eq_false_iff, decide_eq_false_iff_not, not_le, not_lt]
  · omega
  · omega
  · omega

/-- Witness for claim C3 at the concrete game `[100, 200)` and proposed
interval `[50, 150)`. -/
theorem c3_cases_witness : overlapsCases c3Game 50 150 = true :=
  ((c3_cases_iff_overlap_formula c3Game 50 150 (by decide) (by decide)).1).mpr
    (by constructor <;> decide)

/-- Helper for the corrected claim C2: a roster row of the player is "clear"
for a proposed interval when its parent game either is the target game, is
cancelled or postponed, or does not overlap the interval. -/
def otherCommitmentClear (st : DB) (s e : Int) (gid : Nat) (r : RosterRow) : Bool :=
  match findGame st r.gameId with
  | some g =>
    !(g.id != gid && g.status != GameStatus.CANCELLED
        && g.status != GameStatus.POSTPONED && overlapsCases g s e)
  | none => true

/-- One row of the conflict query matches nothing iff the row is clear. -/
theorem conflictRowMatches_eq_none_iff (st : DB) (p : Nat) (s e : Int)
    (gid : Nat) (r : RosterRow) :
    conflictRowMatches st p s e (some gid) r = none ↔
      (r.playerId = p → otherCommitmentClear st s e gid r = true) := by
  unfold conflictRowMatches otherCommitmentClear
  cases hp : (r.playerId == p) with
  | false =>
    simp only [if_neg (by simp [hp] : ¬ (r.playerId == p) = true)]
    simp only [beq_eq_false_iff_ne] at hp
    simp [hp]
  | true =>
    simp only [if_pos hp]
    simp only [beq_iff_eq] at hp
    cases hg : findGame st r.gameId with
    | none => simp [hp]
    | some g =>
      cases hc : (g.id != gid && g.status != GameStatus.CANCELLED
          && g.status != GameStatus.POSTPONED && overlapsCases g s e) with
      | true => simp [hc, hp]
      | false => simp [hc, hp]

/-- The conflict check returns nothing iff every roster row fails the query. -/
theorem checkPlayerConflict_eq_none_iff (st : DB) (p : Nat) (s e : Int)
    (ex : Option Nat) :
    checkPlayerConflict st p s e ex = none ↔
      ∀ r ∈ st.roster, conflictRowMatches st p s e ex r = none := by
  unfold checkPlayerConflict
  exact head?_filterMap_eq_none _ _

/-- Corrected claim C2: `AddToRoster`'s conflict validation passes the target
game id as the exclusion, so it succeeds exactly when every existing
commitment of the player to a game OTHER than the target game is cancelled,
postponed, or non-overlapping; commitments to the target game itself are
never considered. -/
theorem c2_validation_considers_all_other_commitments (st : DB) (p gid : Nat)
    (g : Game) (h : findGame st gid = some g) :
    validateRosterAddition st p gid = Except.ok () ↔
      ∀ r ∈ st.roster, r.playerId = p →
        otherCommitmentClear st g.startTime g.endTime gid r = true := by
  simp only [validateRosterAddition, h]
  cases hc : checkPlayerConflict st p g.startTime g.endTime (some gid) with
  | none =>
    constructor
    · intro _ r hr hp
      have := (checkPlayerConflict_eq_none_iff st p g.startTime g.endTime (some gid)).mp hc r hr
      exact (conflictRowMatches_eq_none_iff st p g.startTime g.endTime gid r).mp this hp
    · intro _
      rfl
  | some c =>
    constructor
    · intro hcontra
      exact absurd hcontra (by simp)
    · intro hall
      exfalso
      have : checkPlayerConflict st p g.startTime g.endTime (some gid) = none := by
        refine (checkPlayerConflict_eq_none_iff st p g.startTime g.endTime (some gid)).mpr ?_
        intro r hr
        refine (conflictRowMatches_eq_none_iff st p g.startTime g.endTime gid r).mpr ?_
        intro hp
        exact hall r hr hp
      rw [hc] at this
      exact absurd this (by simp)

/-- Witness for the corrected claim C2: in `c2State` player 5's only
commitment is to the overlapping target game itself, and the validation
succeeds. -/
theorem c2_validation_witness : validateRosterAddition c2State 5 1 = Except.ok () :=
  (c2_validation_considers_all_other_commitments c2State 5 1 wideGame (by rfl)).mpr
    (by decide)

/-- Claim C6: for every existing game and every lineup configuration,
`setLineup` succeeds (upserting) and a following `getLineup` returns exactly
the stored configuration, whether or not a lineup row already existed. -/
theorem c6_lineup_roundtrip (st : DB) (gid : Nat) (g : Game) (cfg : LineupInput)
    (h : findGame st gid = some g) :
    ∃ st2, setLineup st gid cfg = Except.ok st2 ∧ getLineup st2 gid = some cfg := by
  simp only [setLineup, h]
  cases hrow : st.lineups.find? (fun l => l.gameId == gid) with
  | some row =>
    simp only [hrow, Option.isSome_some, if_pos]
    refine ⟨_, rfl, ?_⟩
    unfold getLineup
    have hpres : ∀ l : LineupRow,
        ((if l.gameId == gid then { l with configuration := cfg } else l).gameId == gid) =
          (l.gameId == gid) := by
      intro l
      cases hl : (l.gameId == gid) with
      | true => simp [if_pos hl, hl]
      | false => simp [hl]
    rw [show ({ st with
        lineups := st.lineups.map (fun l =>
          if l.gameId == gid then { l with configuration := cfg } else l) } : DB).lineups =
        st.lineups.map (fun l =>
          if l.gameId == gid then { l with configuration := cfg } else l) from rfl,
      find?_map_of_pred _ _ hpres, hrow]
    have hrowid := List.find?_some hrow
    simp only [beq_iff_eq] at hrowid
    simp [hrowid]
  | none =>
    simp only [hrow, Option.isSome_none, Bool.false_eq_true, if_false]
    refine ⟨_, rfl, ?_⟩
    unfold getLineup
    rw [show ({ st with
        lineups := st.lineups ++ [{ gameId := gid, configuration := cfg }] } : DB).lineups =
        st.lineups ++ [{ gameId := gid, configuration := cfg }] from rfl,
      find?_append_of_none _ _ _ hrow]
    simp

/-- A lineup configuration used by claim C6's witness. -/
def c6Config : LineupInput :=
  { forwardLines := some [["c", "lw", "rw"]], defensePairs := some [["ld", "rd"]],
    goalies := some ["g1"] }

/-- Witness for claim C6 at the concrete store `c4State` (game 1, no existing
lineup row). -/
theorem c6_lineup_roundtrip_witness :
    ∃ st2, setLineup c4State 1 c6Config = Except.ok st2 ∧
      getLineup st2 1 = some c6Config :=
  c6_lineup_roundtrip c4State 1 wideGame c6Config (by rfl)

/-- Claim C9: an update carrying neither `startTime` nor `endTime` performs no
conflict check and succeeds whenever the game exists — for any roster and any
other games — leaving the stored interval unchanged and applying the supplied
status (including CANCELLED or POSTPONED back to SCHEDULED). -/
theorem c9_status_only_update_commits (st : DB) (id : Nat) (d : UpdateGameInput)
    (g : Game) (hs : d.startTime = none) (he : d.endTime = none)
    (hg : findGame st id = some g) :
    ∃ st2 g2, gameUpdate st id d = Except.ok (st2, g2) ∧
      g2.startTime = g.startTime ∧ g2.endTime = g.endTime ∧
      g2.status = d.status.getD g.status ∧
      st2.roster = st.roster ∧
      st2.games = st.games.map (fun x => if x.id == id then g2 else x) := by
  simp only [gameUpdate, hg, hs, he, Option.isSome_none, Bool.or_self,
    Bool.false_eq_true, if_false]
  exact ⟨_, _, rfl, rfl, rfl, rfl, rfl, rfl⟩

/-- A cancelled game `[0, 9000000)` of team 1. -/
def c9CancGame : Game :=
  { id := 1, teamId := 1, opponent := "Ducks", location := "Rink",
    gameType := GameType.REGULAR, startTime := 0, endTime := 9000000,
    status := GameStatus.CANCELLED, isHome := true, rosterLocked := false }

/-- A scheduled game with the same interval on another team. -/
def c9OtherGame : Game :=
  { id := 2, teamId := 2, opponent := "Sharks", location := "Rink",
    gameType := GameType.REGULAR, startTime := 0, endTime := 9000000,
    status := GameStatus.SCHEDULED, isHome := true, rosterLocked := false }

/-- Claim C9's witness store: player 5 is rostered on both the cancelled
game 1 and the overlapping scheduled game 2. -/
def c9State : DB :=
  { emptyDB with
    games := [c9CancGame, c9OtherGame]
    roster := [{ gameId := 1, playerId := 5 }, { gameId := 2, playerId := 5 }] }

/-- A status-only PATCH body setting the game back to SCHEDULED. -/
def c9Input : UpdateGameInput :=
  { opponent := none, location := none, gameType := none, startTime := none,
    endTime := none, isHome := none, status := some GameStatus.SCHEDULED }

/-- Witness for claim C9: flipping cancelled game 1 back to SCHEDULED commits
even though player 5 then holds overlapping commitments. -/
theorem c9_status_only_update_witness :
    ∃ st2 g2, gameUpdate c9State 1 c9Input = Except.ok (st2, g2) ∧
      g2.startTime = c9CancGame.startTime ∧ g2.endTime = c9CancGame.endTime ∧
      g2.status = c9Input.status.getD c9CancGame.status ∧
      st2.roster = c9State.roster ∧
      st2.games = c9State.games.map (fun x => if x.id == 1 then g2 else x) :=
  c9_status_only_update_commits c9State 1 c9Input c9CancGame (by rfl) (by rfl) (by rfl)

/-- Corrected claim C7: for every existing game, the summary's `total` is the
count of active TeamMembership rows of the game's team at query time, and
`pending` plus the number of active team members who have responded (with any
status) equals `total` — i.e. `pending` counts the non-responding active
members, not `total` minus all responders. -/
theorem c7_summary_total_and_pending (st : DB) (gid : Nat) (game : Game)
    (h : findGame st gid = some game) :
    ∃ s, getAvailabilitySummary st gid = Except.ok s ∧
      s.total = (st.teamPlayers.filter (fun tp =>
        tp.teamId == game.teamId && tp.isActive)).length ∧
      s.pending + (((st.teamPlayers.filter (fun tp =>
          tp.teamId == game.teamId && tp.isActive)).map TeamPlayer.playerId).filter
        (fun i => ((st.availabilities.filter (fun a =>
          a.gameId == gid)).map AvailabilityRow.playerId).contains i)).length =
        s.total := by
  simp only [getAvailabilitySummary, h]
  refine ⟨_, rfl, ?_, ?_⟩
  · dsimp only
    exact List.length_map _ _
  · dsimp only
    exact length_filter_not_add_length_filter _ _

/-- Witness for the corrected claim C7 at `c7State`: total 1, the sole
member has not responded, the outsider's response leaves pending at 1. -/
theorem c7_summary_witness :
    ∃ s, getAvailabilitySummary c7State 1 = Except.ok s ∧
      s.total = (c7State.teamPlayers.filter (fun tp =>
        tp.teamId == wideGame.teamId && tp.isActive)).length ∧
      s.pending + (((c7State.teamPlayers.filter (fun tp =>
          tp.teamId == wideGame.teamId && tp.isActive)).map TeamPlayer.playerId).filter
        (fun i => ((c7State.availabilities.filter (fun a =>
          a.gameId == 1)).map AvailabilityRow.playerId).contains i)).length =
        s.total :=
  c7_summary_total_and_pending c7State 1 wideGame (by rfl)

/-- Corrected claim C8: no interval validation exists anywhere on the game
paths: creation always succeeds for an existing team and persists exactly the
provided times (default end applied when absent), even when `end <= start`;
and `GameService.update` never raises a `ValidationError`. -/
theorem c8_no_interval_validation :
    (∀ (st : DB) (newId : Nat) (d : CreateGameInput) (t : Team),
      findTeam st d.teamId = some t →
      ∃ st2 g, gameCreate st newId d = Except.ok (st2, g) ∧
        g.startTime = d.startTime ∧
        g.endTime = d.endTime.getD (d.startTime + DEFAULT_GAME_DURATION_MS)) ∧
    (∀ (st : DB) (id : Nat) (d : UpdateGameInput) (msg : String),
      gameUpdate st id d ≠ Except.error (ApiErr.validation msg)) := by
  constructor
  · intro st newId d t ht
    simp only [gameCreate, ht]
    refine ⟨_, _, rfl, rfl, ?_⟩
    cases d.endTime <;> rfl
  · intro st id d msg
    cases hf : findGame st id with
    | none => simp [gameUpdate, hf]
    | some ex =>
      simp only [gameUpdate, hf]
      intro hcontra
      split at hcontra
      · simp only [Except.error.injEq] at hcontra
        rename_i e heq
        subst hcontra
        split at heq
        · split at heq
          · simp at heq
          · simp at heq
        · simp at heq
      · simp at hcontra

/-- Witness for the corrected claim C8: creating a game with the malformed
interval `[1000, 500)` in `c8State` succeeds with exactly those times. -/
theorem c8_no_interval_validation_witness :
    ∃ st2 g, gameCreate c8State 7 c8Input = Except.ok (st2, g) ∧
      g.startTime = c8Input.startTime ∧
      g.endTime = c8Input.endTime.getD (c8Input.startTime + DEFAULT_GAME_DURATION_MS) :=
  c8_no_interval_validation.1 c8State 7 c8Input { id := 1, name := "Avalanche" } (by rfl)

/-- The upsert's update function preserves the row's player id. -/
theorem updAvail_playerId (p gid : Nat) (d : SetAvailabilityInput) (now : Int)
    (a : AvailabilityRow) : (updAvail p gid d now a).playerId = a.playerId := by
  unfold updAvail
  split <;> rfl

/-- The upsert's update function preserves the row's game id. -/
theorem updAvail_gameId (p gid : Nat) (d : SetAvailabilityInput) (now : Int)
    (a : AvailabilityRow) : (updAvail p gid d now a).gameId = a.gameId := by
  unfold updAvail
  split <;> rfl

/-- The upsert's update touches no other player's rows. -/
theorem map_updAvail_others (L : List AvailabilityRow) (p gid : Nat)
    (d : SetAvailabilityInput) (now : Int) :
    (L.map (updAvail p gid d now)).filter (fun a => a.playerId != p) =
      L.filter (fun a => a.playerId != p) := by
  induction L with
  | nil => rfl
  | cons a L ih =>
    by_cases hpa : (a.playerId == p) = true
    · have h1 : ((updAvail p gid d now a).playerId != p) = false := by
        rw [bne, updAvail_playerId, hpa]
        rfl
      have h2 : (a.playerId != p) = false := by
        rw [bne, hpa]
        rfl
      simp [List.filter_cons, h1, h2, ih]
    · have hcond : (a.playerId == p && a.gameId == gid) = false := by
        simp [hpa]
      have hupd : updAvail p gid d now a = a := by
        unfold updAvail
        simp [hcond]
      have hpaf : (a.playerId == p) = false := by
        simp only [Bool.not_eq_true] at hpa
        exact hpa
      have h2 : (a.playerId != p) = true := by
        rw [bne, hpaf]
        rfl
      simp [List.filter_cons, hupd, h2, ih]

/-- The upsert's update leaves the responder list of every game unchanged. -/
theorem map_updAvail_responded (L : List AvailabilityRow) (p gid : Nat)
    (d : SetAvailabilityInput) (now : Int) :
    ((L.map (updAvail p gid d now)).filter (fun a => a.gameId == gid)).map
        AvailabilityRow.playerId =
      (L.filter (fun a => a.gameId == gid)).map AvailabilityRow.playerId := by
  induction L with
  | nil => rfl
  | cons a L ih =>
    have hg : ((updAvail p gid d now a).gameId == gid) = (a.gameId == gid) := by
      rw [updAvail_gameId]
    by_cases hga : (a.gameId == gid) = true
    · simp [List.filter_cons, hg, hga, updAvail_playerId, ih]
    · simp [List.filter_cons, hg, hga, ih]

/-- After the upsert's update, every row of the (player, game) pair carries
the submitted status. -/
theorem map_updAvail_status (L : List AvailabilityRow) (p gid : Nat)
    (d : SetAvailabilityInput) (now : Int) (b : AvailabilityRow)
    (hb : b ∈ L.map (updAvail p gid d now))
    (hbp : b.playerId = p) (hbg : b.gameId = gid) : b.status = d.status := by
  rcases List.mem_map.mp hb with ⟨a, ha, hfa⟩
  by_cases hc : (a.playerId == p && a.gameId == gid) = true
  · have hu : updAvail p gid d now a =
        { a with
          status := d.status,
          note := match d.note with | some n => some n | none => a.note,
          respondedAt := now } := by
      unfold updAvail
      rw [if_pos hc]
    rw [← hfa, hu]
  · have hu : updAvail p gid d now a = a := by
      unfold updAvail
      rw [if_neg hc]
    rw [hu] at hfa
    subst hfa
    exact absurd (by simp [hbp, hbg]) hc

/-- After the upsert's update, the (player, game) pair still has a row. -/
theorem map_updAvail_row_exists (L : List AvailabilityRow) (p gid : Nat)
    (d : SetAvailabilityInput) (now : Int) (a0 : AvailabilityRow)
    (hfind : L.find? (fun a => a.playerId == p && a.gameId == gid) = some a0) :
    1 ≤ ((L.map (updAvail p gid d now)).filter
      (fun a => a.gameId == gid && a.playerId == p)).length := by
  have ha0 : a0 ∈ L := List.mem_of_find?_eq_some hfind
  have hcond := List.find?_some hfind
  have hmem : updAvail p gid d now a0 ∈ L.map (updAvail p gid d now) :=
    List.mem_map_of_mem _ ha0
  have hkeep : ((updAvail p gid d now a0).gameId == gid &&
      (updAvail p gid d now a0).playerId == p) = true := by
    rw [updAvail_gameId, updAvail_playerId]
    simp only [Bool.and_eq_true] at hcond
    simp [hcond.1, hcond.2]
  have hmf : updAvail p gid d now a0 ∈
      (L.map (updAvail p gid d now)).filter
        (fun a => a.gameId == gid && a.playerId == p) :=
    List.mem_filter.mpr ⟨hmem, hkeep⟩
  exact List.length_pos.mpr (List.ne_nil_of_mem hmf)

/-- Splitting a game's per-status tally into the contribution of other
players' rows and of player `p`'s rows, when all of `p`'s rows for the game
carry the status `ds`: `p`'s rows are counted exactly in the `ds` tally. -/
theorem tally_split (L2 : List AvailabilityRow) (p gid : Nat) (σ ds : AvailStatus)
    (hall : ∀ a ∈ L2, a.playerId = p → a.gameId = gid → a.status = ds) :
    ((L2.filter (fun a => a.gameId == gid)).filter
        (fun a => a.status == σ)).length =
      ((L2.filter (fun a => a.gameId == gid && a.playerId != p)).filter
        (fun a => a.status == σ)).length +
      (if σ = ds then
        (L2.filter (fun a => a.gameId == gid && a.playerId == p)).length
      else 0) := by
  induction L2 with
  | nil => simp
  | cons a L ih =>
    have ihL := ih (fun x hx => hall x (List.mem_cons_of_mem a hx))
    by_cases hga : (a.gameId == gid) = true
    · by_cases hpa : (a.playerId == p) = true
      · have hst : a.status = ds := hall a (List.mem_cons_self a L)
          (by simpa using hpa) (by simpa using hga)
        have hbne : (a.playerId != p) = false := by
          rw [bne, hpa]
          rfl
        by_cases hsd : σ = ds
        · have hsa : (a.status == σ) = true := by
            rw [hst, hsd]
            exact beq_self_eq_true ds
          simp only [List.filter_cons, hga, hpa, hsa, hbne, Bool.and_false,
            Bool.and_true, Bool.false_eq_true, if_false, if_true,
            List.length_cons, if_pos hsd] at ihL ⊢
          omega
        · have hsa : (a.status == σ) = false := by
            rw [hst]
            simp
            exact fun h => hsd h.symm
          simp only [List.filter_cons, hga, hpa, hsa, hbne, Bool.and_false,
            Bool.and_true, Bool.false_eq_true, if_false, if_true,
            List.length_cons, if_neg hsd] at ihL ⊢
          omega
      · have hpaf : (a.playerId == p) = false := by
          simp only [Bool.not_eq_true] at hpa
          exact hpa
        have hbne : (a.playerId != p) = true := by
          rw [bne, hpaf]
          rfl
        by_cases hsa : (a.status == σ) = true
        · simp only [List.filter_cons, hga, hpa, hsa, hbne, Bool.and_false,
            Bool.and_true, Bool.false_eq_true, if_false, if_true,
            List.length_cons] at ihL ⊢
          omega
        · simp only [Bool.not_eq_true] at hsa
          simp only [List.filter_cons, hga, hpa, hsa, hbne, Bool.and_false,
            Bool.and_true, Bool.false_eq_true, if_false, if_true,
            List.length_cons] at ihL ⊢
          omega
    · simp only [Bool.not_eq_true] at hga
      simp only [List.filter_cons, hga, Bool.false_and, Bool.false_eq_true,
        if_false] at ihL ⊢
      exact ihL

/-- Claim C10: for every existing player and existing game — member or not,
with or without a prior response — `setAvailability` succeeds and upserts the
(player, game) row with the submitted status; no other player's rows change;
the summary's `total` is unchanged (responses never contribute to it) and
each of the available/unavailable/maybe tallies equals the other players'
contribution plus the player's rows exactly when the submitted status
matches, so the response is counted in the tally of its status; when the
player has no active membership with the game's team, `pending` is also
unchanged. -/
theorem c10_availability_regardless_of_membership (st : DB) (p gid : Nat)
    (g : Game) (d : SetAvailabilityInput) (now : Int)
    (hg : findGame st gid = some g)
    (hp : st.players.contains p = true) :
    ∃ st2 s1 s2,
      setAvailability st p gid d now = Except.ok st2 ∧
      st2.games = st.games ∧
      st2.teamPlayers = st.teamPlayers ∧
      (∀ a ∈ st2.availabilities, a.playerId = p → a.gameId = gid →
        a.status = d.status) ∧
      1 ≤ (st2.availabilities.filter (fun a =>
        a.gameId == gid && a.playerId == p)).length ∧
      st2.availabilities.filter (fun a => a.playerId != p) =
        st.availabilities.filter (fun a => a.playerId != p) ∧
      getAvailabilitySummary st gid = Except.ok s1 ∧
      getAvailabilitySummary st2 gid = Except.ok s2 ∧
      s2.total = s1.total ∧
      s2.available = ((st2.availabilities.filter (fun a =>
          a.gameId == gid && a.playerId != p)).filter (fun a =>
          a.status == AvailStatus.AVAILABLE)).length +
        (if AvailStatus.AVAILABLE = d.status then
          (st2.availabilities.filter (fun a =>
            a.gameId == gid && a.playerId == p)).length
        else 0) ∧
      s2.unavailable = ((st2.availabilities.filter (fun a =>
          a.gameId == gid && a.playerId != p)).filter (fun a =>
          a.status == AvailStatus.UNAVAILABLE)).length +
        (if AvailStatus.UNAVAILABLE = d.status then
          (st2.availabilities.filter (fun a =>
            a.gameId == gid && a.playerId == p)).length
        else 0) ∧
      s2.maybe = ((st2.availabilities.filter (fun a =>
          a.gameId == gid && a.playerId != p)).filter (fun a =>
          a.status == AvailStatus.MAYBE)).length +
        (if AvailStatus.MAYBE = d.status then
          (st2.availabilities.filter (fun a =>
            a.gameId == gid && a.playerId == p)).length
        else 0) ∧
      ((∀ tp ∈ st.teamPlayers, tp.playerId = p →
          (tp.teamId == g.teamId && tp.isActive) = false) →
        s2.pending = s1.pending) := by
  cases hfind : st.availabilities.find? (fun a =>
      a.playerId == p && a.gameId == gid) with
  | some a0 =>
    have hset : setAvailability st p gid d now = Except.ok
        { st with
          availabilities := st.availabilities.map (updAvail p gid d now) } := by
      simp only [setAvailability, hg, hp, hfind, Option.isSome_some, if_true]
    have hg2 : findGame { st with
        availabilities := st.availabilities.map (updAvail p gid d now) } gid =
        some g := hg
    have hall : ∀ a ∈ st.availabilities.map (updAvail p gid d now),
        a.playerId = p → a.gameId = gid → a.status = d.status :=
      fun b hb hbp hbg => map_updAvail_status st.availabilities p gid d now b hb hbp hbg
    cases e1 : getAvailabilitySummary st gid with
    | error a =>
      simp only [getAvailabilitySummary, hg] at e1
      exact absurd e1 (by simp)
    | ok s1 =>
      cases e2 : getAvailabilitySummary { st with
          availabilities := st.availabilities.map (updAvail p gid d now) } gid with
      | error a =>
        simp only [getAvailabilitySummary, hg2] at e2
        exact absurd e2 (by simp)
      | ok s2 =>
        have e1c := e1
        have e2c := e2
        simp only [getAvailabilitySummary, hg, Except.ok.injEq] at e1c
        simp only [getAvailabilitySummary, hg2, Except.ok.injEq] at e2c
        subst e1c
        subst e2c
        refine ⟨_, _, _, hset, rfl, rfl, hall,
          map_updAvail_row_exists st.availabilities p gid d now a0 hfind,
          map_updAvail_others st.availabilities p gid d now, rfl, e2, rfl,
          ?_, ?_, ?_, ?_⟩
        · exact tally_split (st.availabilities.map (updAvail p gid d now)) p gid
            AvailStatus.AVAILABLE d.status hall
        · exact tally_split (st.availabilities.map (updAvail p gid d now)) p gid
            AvailStatus.UNAVAILABLE d.status hall
        · exact tally_split (st.availabilities.map (updAvail p gid d now)) p gid
            AvailStatus.MAYBE d.status hall
        · intro _
          dsimp only
          rw [map_updAvail_responded]
  | none =>
    have hnone := List.find?_eq_none.mp hfind
    have hset : setAvailability st p gid d now = Except.ok
        { st with
          availabilities := st.availabilities ++
            [{ playerId := p, gameId := gid, status := d.status, note := d.note,
               respondedAt := now }] } := by
      simp only [setAvailability, hg, hp, hfind, Option.isSome_none,
        Bool.false_eq_true, if_false, if_true]
    have hg2 : findGame { st with
        availabilities := st.availabilities ++
          [{ playerId := p, gameId := gid, status := d.status, note := d.note,
             respondedAt := now }] } gid = some g := hg
    have hall : ∀ a ∈ st.availabilities ++
        [({ playerId := p, gameId := gid, status := d.status, note := d.note,
            respondedAt := now } : AvailabilityRow)],
        a.playerId = p → a.gameId = gid → a.status = d.status := by
      intro a ha hap hag
      rcases List.mem_append.mp ha with hmem | hmem
      · exact absurd (by simp [hap, hag]) (hnone a hmem)
      · have ha2 : a =
            { playerId := p
              gameId := gid
              status := d.status
              note := d.note
              respondedAt := now } := by
          simpa using hmem
        rw [ha2]
    have hpcnt : 1 ≤ ((st.availabilities ++
        [({ playerId := p, gameId := gid, status := d.status, note := d.note,
            respondedAt := now } : AvailabilityRow)]).filter (fun a =>
          a.gameId == gid && a.playerId == p)).length := by
      rw [List.filter_append]
      simp
    have hothers : (st.availabilities ++
        [({ playerId := p, gameId := gid, status := d.status, note := d.note,
            respondedAt := now } : AvailabilityRow)]).filter
          (fun a => a.playerId != p) =
        st.availabilities.filter (fun a => a.playerId != p) := by
      rw [List.filter_append]
      simp
    cases e1 : getAvailabilitySummary st gid with
    | error a =>
      simp only [getAvailabilitySummary, hg] at e1
      exact absurd e1 (by simp)
    | ok s1 =>
      cases e2 : getAvailabilitySummary { st with
          availabilities := st.availabilities ++
            [{ playerId := p, gameId := gid, status := d.status, note := d.note,
               respondedAt := now }] } gid with
      | error a =>
        simp only [getAvailabilitySummary, hg2] at e2
        exact absurd e2 (by simp)
      | ok s2 =>
        have e1c := e1
        have e2c := e2
        simp only [getAvailabilitySummary, hg, Except.ok.injEq] at e1c
        simp only [getAvailabilitySummary, hg2, Except.ok.injEq] at e2c
        subst e1c
        subst e2c
        refine ⟨_, _, _, hset, rfl, rfl, hall, hpcnt, hothers, rfl, e2, rfl,
          ?_, ?_, ?_, ?_⟩
        · exact tally_split _ p gid AvailStatus.AVAILABLE d.status hall
        · exact tally_split _ p gid AvailStatus.UNAVAILABLE d.status hall
        · exact tally_split _ p gid AvailStatus.MAYBE d.status hall
        · intro hnm
          dsimp only
          have hinner : List.map AvailabilityRow.playerId
              (List.filter (fun a => a.gameId == gid)
                (st.availabilities ++
                  [{ playerId := p, gameId := gid, status := d.status,
                     note := d.note, respondedAt := now }])) =
              List.map AvailabilityRow.playerId
                (List.filter (fun a => a.gameId == gid) st.availabilities) ++ [p] := by
            simp [List.filter_append]
          simp only [hinner]
          refine congrArg List.length (List.filter_congr ?_)
          intro i hi
          have hne : i ≠ p := by
            rcases List.mem_map.mp hi with ⟨tp, htp, hteq⟩
            rcases List.mem_filter.mp htp with ⟨htmem, htcond⟩
            intro hip
            have := hnm tp htmem (by rw [← hteq] at hip; exact hip)
            rw [this] at htcond
            exact absurd htcond (by simp)
          simp [List.elem_eq_mem, List.mem_append, hne]

/-- Claim C10's witness store: game 1 of team 1 whose only active member is
player 2; players 2 and 9 exist; player 9 is not on team 1. -/
def c10State : DB :=
  { emptyDB with
    games := [wideGame]
    teams := [{ id := 1, name := "Avalanche" }]
    teamPlayers := [{ playerId := 2, teamId := 1, isActive := true }]
    players := [2, 9] }

/-- An AVAILABLE response body. -/
def c10Input : SetAvailabilityInput := { status := AvailStatus.AVAILABLE, note := none }

/-- Witness for claim C10: non-member player 9 responds AVAILABLE to game 1
of team 1, whose only active member is player 2. -/
theorem c10_regardless_witness :
    ∃ st2 s1 s2,
      setAvailability c10State 9 1 c10Input 111 = Except.ok st2 ∧
      st2.games = c10State.games ∧
      st2.teamPlayers = c10State.teamPlayers ∧
      (∀ a ∈ st2.availabilities, a.playerId = 9 → a.gameId = 1 →
        a.status = c10Input.status) ∧
      1 ≤ (st2.availabilities.filter (fun a =>
        a.gameId == 1 && a.playerId == 9)).length ∧
      st2.availabilities.filter (fun a => a.playerId != 9) =
        c10State.availabilities.filter (fun a => a.playerId != 9) ∧
      getAvailabilitySummary c10State 1 = Except.ok s1 ∧
      getAvailabilitySummary st2 1 = Except.ok s2 ∧
      s2.total = s1.total ∧
      s2.available = ((st2.availabilities.filter (fun a =>
          a.gameId == 1 && a.playerId != 9)).filter (fun a =>
          a.status == AvailStatus.AVAILABLE)).length +
        (if AvailStatus.AVAILABLE = c10Input.status then
          (st2.availabilities.filter (fun a =>
            a.gameId == 1 && a.playerId == 9)).length
        else 0) ∧
      s2.unavailable = ((st2.availabilities.filter (fun a =>
          a.gameId == 1 && a.playerId != 9)).filter (fun a =>
          a.status == AvailStatus.UNAVAILABLE)).length +
        (if AvailStatus.UNAVAILABLE = c10Input.status then
          (st2.availabilities.filter (fun a =>
            a.gameId == 1 && a.playerId == 9)).length
        else 0) ∧
      s2.maybe = ((st2.availabilities.filter (fun a =>
          a.gameId == 1 && a.playerId != 9)).filter (fun a =>
          a.status == AvailStatus.MAYBE)).length +
        (if AvailStatus.MAYBE = c10Input.status then
          (st2.availabilities.filter (fun a =>
            a.gameId == 1 && a.playerId == 9)).length
        else 0) ∧
      ((∀ tp ∈ c10State.teamPlayers, tp.playerId = 9 →
          (tp.teamId == wideGame.teamId && tp.isActive) = false) →
        s2.pending = s1.pending) :=
  c10_availability_regardless_of_membership c10State 9 1 wideGame c10Input 111
    (by rfl) (by rfl)

/-- The store after `GameService.delete(cid)`: the game's status flipped to
CANCELLED in place, everything else untouched. -/
def cancelGames (st : DB) (cid : Nat) : DB :=
  { st with
    games := st.games.map (fun g =>
      if g.id == cid then { g with status := GameStatus.CANCELLED } else g) }

/-- `delete` on an existing game returns the cancelled store. -/
theorem gameDelete_eq (st : DB) (cid : Nat) (g : Game)
    (h : findGame st cid = some g) :
    gameDelete st cid = Except.ok (cancelGames st cid) := by
  simp only [gameDelete, h, cancelGames]

/-- Cancellation leaves the roster table untouched. -/
theorem cancelGames_roster (st : DB) (cid : Nat) :
    (cancelGames st cid).roster = st.roster := rfl

/-- Cancellation leaves the membership table untouched. -/
theorem cancelGames_teamPlayers (st : DB) (cid : Nat) :
    (cancelGames st cid).teamPlayers = st.teamPlayers := rfl

/-- Game lookup after cancellation, in terms of lookup before. -/
theorem findGame_cancelGames (st : DB) (cid j : Nat) :
    findGame (cancelGames st cid) j =
      (findGame st j).map (fun g =>
        if g.id == cid then { g with status := GameStatus.CANCELLED } else g) := by
  unfold findGame cancelGames
  exact find?_map_of_pred _ _ (fun g => by cases h : (g.id == cid) <;> simp [h]) _

/-- The cancelled game is still present, with status CANCELLED. -/
theorem findGame_cancelGames_self (st : DB) (cid : Nat) (g : Game)
    (h : findGame st cid = some g) :
    findGame (cancelGames st cid) cid = some { g with status := GameStatus.CANCELLED } := by
  rw [findGame_cancelGames, h]
  have hid := findGame_id h
  simp [hid]

/-- Every other game is unchanged by the cancellation. -/
theorem findGame_cancelGames_other (st : DB) (cid j : Nat) (hne : j ≠ cid) :
    findGame (cancelGames st cid) j = findGame st j := by
  rw [findGame_cancelGames]
  cases h : findGame st j with
  | none => rfl
  | some g =>
    have hid := findGame_id h
    simp [hid, hne]

/-- Claim C5: cancelling game `g1id` soft-deletes it (status CANCELLED, the
game row and all roster rows survive, all other games untouched) and frees
its players' time: if adding player `p` to the overlapping unlocked game
`g2id` failed with the scheduling `ConflictError` and every conflict was with
`g1id`, the same addition succeeds after the cancellation. -/
theorem c5_cancel_frees_player_time (st : DB) (g1id g2id p : Nat) (g1 g2 : Game)
    (tp0 : TeamPlayer)
    (h1 : findGame st g1id = some g1)
    (h2 : findGame st g2id = some g2)
    (hne : g1id ≠ g2id)
    (hlock : g2.rosterLocked = false)
    (htp : st.teamPlayers.find? (fun tp =>
      tp.playerId == p && tp.teamId == g2.teamId && tp.isActive) = some tp0)
    (hnew : st.roster.find? (fun r => r.gameId == g2id && r.playerId == p) = none)
    (hconf : ¬ ∀ r ∈ st.roster,
      conflictRowMatches st p g2.startTime g2.endTime (some g2id) r = none)
    (honly : ∀ r ∈ st.roster,
      conflictRowMatches st p g2.startTime g2.endTime (some g2id) r ≠ none →
        r.gameId = g1id) :
    (∃ msg, addToRoster st g2id p = Except.error (ApiErr.conflict msg)) ∧
    gameDelete st g1id = Except.ok (cancelGames st g1id) ∧
    (cancelGames st g1id).roster = st.roster ∧
    findGame (cancelGames st g1id) g1id =
      some { g1 with status := GameStatus.CANCELLED } ∧
    (∀ j, j ≠ g1id → findGame (cancelGames st g1id) j = findGame st j) ∧
    addToRoster (cancelGames st g1id) g2id p =
      Except.ok { cancelGames st g1id with
        roster := st.roster ++ [{ gameId := g2id, playerId := p }] } := by
  have hcheck1 : checkPlayerConflict st p g2.startTime g2.endTime (some g2id) ≠ none := by
    intro hcn
    exact hconf ((checkPlayerConflict_eq_none_iff st p g2.startTime g2.endTime
      (some g2id)).mp hcn)
  obtain ⟨c, hc⟩ := Option.ne_none_iff_exists'.mp hcheck1
  have h2' : findGame (cancelGames st g1id) g2id = some g2 := by
    rw [findGame_cancelGames_other st g1id g2id (Ne.symm hne), h2]
  have hval : checkPlayerConflict (cancelGames st g1id) p g2.startTime g2.endTime
      (some g2id) = none := by
    refine (checkPlayerConflict_eq_none_iff (cancelGames st g1id) p g2.startTime
      g2.endTime (some g2id)).mpr ?_
    intro r hr
    rw [cancelGames_roster] at hr
    by_cases hg1 : r.gameId = g1id
    · unfold conflictRowMatches
      rw [hg1, findGame_cancelGames_self st g1id g1 h1]
      cases hp' : (r.playerId == p) <;> simp [hp']
    · have hcongr : conflictRowMatches (cancelGames st g1id) p g2.startTime
          g2.endTime (some g2id) r =
          conflictRowMatches st p g2.startTime g2.endTime (some g2id) r := by
        unfold conflictRowMatches
        rw [findGame_cancelGames_other st g1id r.gameId hg1]
      rw [hcongr]
      by_contra hnn
      exact hg1 (honly r hr hnn)
  have hfail : addToRoster st g2id p = Except.error (ApiErr.conflict
      ("Player is already rostered for " ++ teamNameOf st c.teamId ++ " vs "
        ++ c.opponent ++ " at " ++ toString c.startTime)) := by
    simp only [addToRoster, h2, hlock, Bool.false_eq_true, if_false, htp,
      validateRosterAddition, hc]
  refine ⟨⟨_, hfail⟩, gameDelete_eq st g1id g1 h1, rfl,
    findGame_cancelGames_self st g1id g1 h1,
    (fun j hj => findGame_cancelGames_other st g1id j hj), ?_⟩
  · simp only [addToRoster, h2', hlock, Bool.false_eq_true, if_false,
      cancelGames_teamPlayers, htp, validateRosterAddition, hval,
      cancelGames_roster, hnew]

/-- Scenario A/B's first game: team 1, `[0, 9000000)`. -/
def c5G1 : Game :=
  { id := 1, teamId := 1, opponent := "Sharks", location := "Rink",
    gameType := GameType.REGULAR, startTime := 0, endTime := 9000000,
    status := GameStatus.SCHEDULED, isHome := true, rosterLocked := false }

/-- Scenario A/B's second game: team 2, overlapping `[3600000, 10800000)`. -/
def c5G2 : Game :=
  { id := 2, teamId := 2, opponent := "Kings", location := "Rink",
    gameType := GameType.REGULAR, startTime := 3600000, endTime := 10800000,
    status := GameStatus.SCHEDULED, isHome := true, rosterLocked := false }

/-- Claim C5's witness store: player 5 belongs to both teams and is rostered
only on game 1. -/
def c5State : DB :=
  { emptyDB with
    games := [c5G1, c5G2]
    teams := [{ id := 1, name := "Avalanche" }, { id := 2, name := "Bears" }]
    teamPlayers := [{ playerId := 5, teamId := 1, isActive := true },
                    { playerId := 5, teamId := 2, isActive := true }]
    roster := [{ gameId := 1, playerId := 5 }] }

/-- Witness for claim C5 on Scenario A/B: adding player 5 to game 2 fails
with the scheduling ConflictError, cancelling game 1 keeps its roster row,
and the retried addition succeeds. -/
theorem c5_cancel_witness :
    (∃ msg, addToRoster c5State 2 5 = Except.error (ApiErr.conflict msg)) ∧
    gameDelete c5State 1 = Except.ok (cancelGames c5State 1) ∧
    (cancelGames c5State 1).roster = c5State.roster ∧
    findGame (cancelGames c5State 1) 1 =
      some { c5G1 with status := GameStatus.CANCELLED } ∧
    (∀ j, j ≠ 1 → findGame (cancelGames c5State 1) j = findGame c5State j) ∧
    addToRoster (cancelGames c5State 1) 2 5 =
      Except.ok { cancelGames c5State 1 with
        roster := c5State.roster ++ [{ gameId := 2, playerId := 5 }] } :=
  c5_cancel_frees_player_time c5State 1 2 5 c5G1 c5G2
    { playerId := 5, teamId := 2, isActive := true }
    (by rfl) (by rfl) (by decide) (by rfl) (by rfl) (by rfl) (by decide) (by decide)
